import Mathlib

/-!
Verification of the secure-channel client of the pearpass browser extension.

The development shallowly embeds the `SecureChannelClient` class
(`src/unnamed/part_002`) and the client key store
(`src/unnamed/part_003`, second half) as pure state-passing functions.

Modelling conventions:
* Byte arrays (`Uint8Array`) are `List Nat`.
* Base64 encoding/decoding (`base64Encode` / `base64Decode` from the shared
  utils) are mutually inverse on the values the client exchanges, so values
  "in Base64 form" are identified with their underlying byte lists and the
  encode/decode calls disappear.
* `chrome.storage.local` restricted to the four `nm.*` pairing keys is a
  record of `Option` fields; a `none` field is an absent/`undefined` key
  (the semantics used by the repository's own test harness
  `src/src/background/secureChannel.test.js`).
* Asynchronous methods run to completion atomically (single sequential
  caller); randomness (ephemeral keypairs, nonces) and every response of the
  native-messaging transport are inputs supplied by the caller/environment.
* Thrown JS errors are `Except.error msg` carrying the error message string.
* Outbound effects are recorded in ghost trace fields of the state:
  native-messaging requests (`nmLog`), pairing-required notifications
  (`notifications`), zeroized ephemeral keypairs (`wipedKeyPairs`) and the
  number of `ensureSession` invocations (`ensureCalls`).
-/

deriving instance DecidableEq for Except

namespace PearPass

/-- Modelled from the spec: the shared constants modules
(`shared/constants/nativeMessaging`, `shared/constants/auth`) are not under
`src/`; the spec's error taxonomy names the patterns (not paired, no session,
session not found, decrypt failed, secure-request failed, handshake
begin/finish failed, invalid peer/client signature, identity keys
unavailable, user secret required/invalid). They are modelled as distinct
string literals; `ClientSignatureInvalid` deliberately contains
`SignatureInvalid` as a substring, mirroring the source's substring-based
classification of client-signature problems as signature problems. -/
def NOT_PAIRED : String := "NotPaired"

/-- Session error pattern: no active session. -/
def NO_SESSION : String := "NoSession"

/-- Session error pattern: session not found on the desktop side. -/
def SESSION_NOT_FOUND : String := "SessionNotFound"

/-- Session error pattern: response decryption failed. -/
def DECRYPT_FAILED : String := "DecryptFailed"

/-- Session error pattern: secure request failed. -/
def SECURE_REQUEST_FAILED : String := "SecureRequestFailed"

/-- Session error pattern: handshake begin failed. -/
def HANDSHAKE_FAILED : String := "HandshakeFailed"

/-- Session error pattern: handshake finish failed. -/
def HANDSHAKE_FINISH_FAILED : String := "HandshakeFinishFailed"

/-- Security error pattern: invalid desktop signature. -/
def SIGNATURE_INVALID : String := "SignatureInvalid"

/-- Security error pattern: invalid client signature. -/
def CLIENT_SIGNATURE_INVALID : String := "ClientSignatureInvalid"

/-- Security error pattern: desktop identity keys unavailable. -/
def IDENTITY_KEYS_UNAVAILABLE : String := "IdentityKeysUnavailable"

/-- Auth error pattern: master password required. -/
def MASTER_PASSWORD_REQUIRED : String := "MasterPasswordRequired"

/-- Auth error pattern: master password invalid. -/
def MASTER_PASSWORD_INVALID : String := "MasterPasswordInvalid"

/-- Error literal thrown by the client key store on concurrent unlock
(the literal appears verbatim in `src/unnamed/part_003`). -/
def UNLOCK_IN_PROGRESS : String := "UnlockInProgress"

/-- Modelled from the spec: the protocol tag `PROTOCOL_TAGS.CLIENT_FINISH`
used for domain separation in the client finish transcript; its literal
value lives in the constants module outside `src/`. -/
def CLIENT_FINISH_TAG : String := "pearpass-client-finish"

/-- Message of the JS `TypeError` that dereferencing an absent session inside
`attempt` would raise (unreachable from the modelled call sites). -/
def SESSION_TYPE_ERROR : String := "TypeErrorSessionUndefined"

/-- Message of the JS `SyntaxError` raised by `JSON.parse` on a response that
is not valid JSON. -/
def JSON_PARSE_ERROR : String := "UnexpectedTokenInJSON"

/-- JS `a || b` on strings: empty string is falsy. -/
def jsOr (s fallback : String) : String := if s = "" then fallback else s

/-- JS `a?.x || b` where `a.x` is an optional string. -/
def jsOrOpt (o : Option String) (fallback : String) : String :=
  match o with
  | none => fallback
  | some s => jsOr s fallback

/-- Helper for `String.includes`: does `pat` occur as a contiguous run
inside `l`? -/
def charListSub (pat : List Char) : List Char → Bool
  | [] => pat.isEmpty
  | c :: rest => pat.isPrefixOf (c :: rest) || charListSub pat rest

/-- JS `s.includes(pat)` substring test. -/
def strIncludes (s pat : String) : Bool := charListSub pat.toList s.toList

/-- Byte view of a string (`TextEncoder.encode`, one code point per entry). -/
def strToBytes (s : String) : List Nat := s.toList.map Char.toNat

/-- Partial inverse of `strToBytes` (`TextDecoder.decode`). -/
def strOfBytes (l : List Nat) : String := String.mk (l.map Char.ofNat)

/-! ### Secretbox cipher

Modelled from the spec: the XSalsa20-Poly1305 secretbox primitive is supplied
by the external `@noble/ciphers` library ("the underlying cryptographic
primitives themselves … are assumed to be supplied by a trusted crypto
provider"), so its code is not in this repository. It is modelled with the
same interface and layout as NaCl secretbox: a (key, nonce)-derived keystream
masks the plaintext and a 16-byte (key, nonce)-keyed tag over the ciphertext
is prepended (`tag ∥ ciphertext`); decryption recomputes the tag and throws
(`Except.error`) when it does not match. -/

/-- One mixing step of the model keystream/tag derivation. -/
def mix (a b : Nat) : Nat := (a * 131 + b + 17) % 65521

/-- Keystream seed derived from key and nonce. -/
def ksSeed (key nonce : List Nat) : Nat := (key ++ nonce).foldl mix 9157

/-- Byte `i` of the (key, nonce) keystream. -/
def ksByte (key nonce : List Nat) (i : Nat) : Nat := mix (ksSeed key nonce) i % 256

/-- First `len` bytes of the (key, nonce) keystream. -/
def keystream (key nonce : List Nat) (len : Nat) : List Nat :=
  (List.range len).map (ksByte key nonce)

/-- Pointwise xor, truncating to the shorter list. -/
def xorBytes (a b : List Nat) : List Nat := List.zipWith (fun x y => x ^^^ y) a b

/-- Stream mask of a payload under (key, nonce). -/
def streamMask (key nonce pt : List Nat) : List Nat :=
  xorBytes pt (keystream key nonce pt.length)

/-- The 16-byte authentication tag over a ciphertext body. -/
def tagBytes (key nonce ct : List Nat) : List Nat :=
  (List.range 16).map (fun j => mix ((key ++ nonce ++ ct).foldl mix (j * 73 + 5)) j % 256)

/-- The secretbox wrapper of `src/unnamed/part_002` line 63:
`xsalsa20poly1305(key, nonce).encrypt(plaintext)`; output is
`tag ∥ maskedPlaintext`. -/
def secretbox (plaintext nonce key : List Nat) : List Nat :=
  tagBytes key nonce (streamMask key nonce plaintext) ++ streamMask key nonce plaintext

/-- The raw library decrypt: splits off the 16-byte tag, recomputes it over
the body and throws on mismatch. -/
def nobleSecretboxDecrypt (c nonce key : List Nat) : Except String (List Nat) :=
  if c.length < 16 then Except.error "invalid tag"
  else if c.take 16 = tagBytes key nonce (c.drop 16) then
    Except.ok (xorBytes (c.drop 16) (keystream key nonce (c.drop 16).length))
  else Except.error "invalid tag"

/-- The secretboxOpen wrapper of `src/unnamed/part_002` lines 66-73: any
cipher-level throw is caught and converted to `null` (`none`). -/
def secretboxOpen (ciphertext nonce key : List Nat) : Option (List Nat) :=
  match nobleSecretboxDecrypt ciphertext nonce key with
  | Except.ok pt => some pt
  | Except.error _ => none

/-! ### Request/response serialization

Modelled from the spec: `JSON.stringify`/`JSON.parse` are JS builtins. The
request payload `{method, params}` is an opaque byte serialization; the
response payload `{ok, result, error}` uses an injective length-prefixed
encoding with a partial inverse. -/

/-- Serialized request `JSON.stringify({ method, params })`. -/
def reqBytes (method params : String) : List Nat :=
  strToBytes method ++ 0 :: strToBytes params

/-- Decoded response payload `{ok, result, error}`. -/
structure RespMsg where
  ok : Bool
  result : List Nat
  error : Option String
deriving DecidableEq

/-- Serialization of a response payload. -/
def respEncode (m : RespMsg) : List Nat :=
  (if m.ok then 1 else 0) :: m.result.length ::
    (m.result ++ (match m.error with
      | none => [0]
      | some e => 1 :: strToBytes e))

/-- Partial inverse of `respEncode` (the `JSON.parse` of the decrypted
response). -/
def respDecode : List Nat → Option RespMsg
  | okB :: len :: rest =>
    if len ≤ rest.length then
      match rest.drop len with
      | [0] => some ⟨okB == 1, rest.take len, none⟩
      | 1 :: eb => some ⟨okB == 1, rest.take len, some (strOfBytes eb)⟩
      | _ => none
    else none
  | _ => none

/-! ### Client key store (`src/unnamed/part_003`, second half)

The module-level mutable variables `inMemoryKeypair`, `pendingKeypair`,
`unlocking` and the single IndexedDB record are the fields of
`KeyStoreState`. PBKDF2/AES-GCM (WebCrypto) and fresh-keypair generation are
external primitives supplied as parameters; the record's `createdAt`
timestamp carries no protocol meaning and is omitted. -/

/-- An Ed25519 (or X25519) keypair. -/
structure KeyPair where
  publicKey : List Nat
  privateKey : List Nat
deriving DecidableEq

/-- The persisted encrypted key record (IndexedDB). -/
structure KeyRecord where
  publicKeyB64 : List Nat
  saltB64 : List Nat
  nonceB64 : List Nat
  ciphertextB64 : List Nat
deriving DecidableEq

/-- Module state of the client key store. -/
structure KeyStoreState where
  inMemoryKeypair : Option KeyPair
  pendingKeypair : Option KeyPair
  unlocking : Bool
  record : Option KeyRecord
deriving DecidableEq

/-- External WebCrypto operations used by the key store:
`encryptPrivateKey` yields (salt, nonce, ciphertext);
`decryptPrivateKey` is `none` exactly when AES-GCM rejects the password. -/
structure KsCrypto where
  encryptPrivateKey : List Nat → String → List Nat × List Nat × List Nat
  decryptPrivateKey : KeyRecord → String → Option (List Nat)

/-- The `unlockKeypair` helper (`part_003` lines 599-649). `newKp` stands for
the freshly generated Ed25519 keypair used when neither a record nor a
pending keypair exists. -/
def unlockKeypair (kc : KsCrypto) (newKp : KeyPair) (ks : KeyStoreState)
    (masterPassword : String) : Except String KeyPair × KeyStoreState :=
  match ks.record with
  | none =>
    let kp := match ks.pendingKeypair with
      | some p => p
      | none => newKp
    let enc := kc.encryptPrivateKey kp.privateKey masterPassword
    let newRecord : KeyRecord := ⟨kp.publicKey, enc.1, enc.2.1, enc.2.2⟩
    (Except.ok kp,
      { ks with record := some newRecord, pendingKeypair := none,
                inMemoryKeypair := some kp })
  | some record =>
    match kc.decryptPrivateKey record masterPassword with
    | some privateKey =>
      let kp : KeyPair := ⟨record.publicKeyB64, privateKey⟩
      (Except.ok kp, { ks with inMemoryKeypair := some kp })
    | none => (Except.error MASTER_PASSWORD_INVALID, ks)

/-- `ensureClientKeypairUnlocked` (`part_003` lines 578-597). The `unlocking`
flag is raised during `unlockKeypair` and lowered in the `finally`; the
atomic model shows its net value, unchanged. -/
def ensureClientKeypairUnlocked (kc : KsCrypto) (newKp : KeyPair)
    (ks : KeyStoreState) (masterPassword : Option String) :
    Except String KeyPair × KeyStoreState :=
  match ks.inMemoryKeypair with
  | some kp => (Except.ok kp, ks)
  | none =>
    if ks.unlocking then (Except.error UNLOCK_IN_PROGRESS, ks)
    else
      match masterPassword with
      | none => (Except.error MASTER_PASSWORD_REQUIRED, ks)
      | some pw =>
        if pw = "" then (Except.error MASTER_PASSWORD_REQUIRED, ks)
        else unlockKeypair kc newKp ks pw

/-- Modelled from the spec: `clearClientKeypair` is imported by the channel
but its body is not under `src/`; per the spec's IdentityStore `clear()`, it
"deletes the persisted record and the in-memory cache". -/
def clearClientKeypair (ks : KeyStoreState) : KeyStoreState :=
  { ks with inMemoryKeypair := none, pendingKeypair := none, record := none }

/-! ### Pinned identity storage (`chrome.storage.local`, keys `nm.*`) -/

/-- The four locally persisted pairing fields. A `none` field is an
absent/`undefined` key. -/
structure Storage where
  fingerprint : Option String
  ed25519PublicKey : Option (List Nat)
  x25519PublicKey : Option (List Nat)
  paired : Option Bool
deriving DecidableEq

/-- A complete pinned desktop identity. -/
structure PinnedIdentity where
  fingerprint : String
  ed25519PublicKey : List Nat
  x25519PublicKey : List Nat
deriving DecidableEq

/-- `getPinnedIdentity` (`part_002` lines 358-377): all three identity fields
must be present and truthy (non-empty). -/
def getPinnedIdentity (s : Storage) : Option PinnedIdentity :=
  match s.fingerprint, s.ed25519PublicKey, s.x25519PublicKey with
  | some f, some e, some x =>
    if f = "" || e.isEmpty || x.isEmpty then none else some ⟨f, e, x⟩
  | _, _, _ => none

/-- `unpair` (`part_002` lines 397-404): writes `undefined` over the three
identity fields and `false` over the paired flag. -/
def unpair (_s : Storage) : Storage :=
  { fingerprint := none, ed25519PublicKey := none, x25519PublicKey := none,
    paired := some false }

/-- `pinIdentity` (`part_002` lines 384-391). -/
def pinIdentity (id : PinnedIdentity) (_s : Storage) : Storage :=
  { fingerprint := some id.fingerprint,
    ed25519PublicKey := some id.ed25519PublicKey,
    x25519PublicKey := some id.x25519PublicKey, paired := some true }

/-- `isPaired` (`part_002` lines 200-203). -/
def isPaired (s : Storage) : Bool := (getPinnedIdentity s).isSome

/-! ### Channel state (`SecureChannelClient`) -/

/-- An in-memory session (`this._session`). -/
structure Session where
  id : String
  key : List Nat
  seq : Nat
  hostEphemeralPubB64 : List Nat
deriving DecidableEq

/-- A native-messaging request sent by the channel (ghost trace entry). -/
inductive NmRequest where
  | nmBeginHandshake (extEphemeralPubB64 : List Nat)
  | nmFinishHandshake (sessionId : String) (clientSigB64 : List Nat)
  | nmSecureRequest (sessionId : String) (nonceB64 : List Nat)
      (ciphertextB64 : List Nat) (seq : Nat)
deriving DecidableEq

/-- Instance state of `SecureChannelClient` together with ghost traces of its
outbound effects. -/
structure ChannelState where
  storage : Storage
  keyStore : KeyStoreState
  session : Option Session
  ephemeralKeyPair : Option KeyPair
  notifications : List String
  nmLog : List NmRequest
  wipedKeyPairs : List KeyPair
  ensureCalls : Nat
deriving DecidableEq

/-- External cryptographic primitives from `@noble/curves` and WebCrypto
SHA-256 (trusted crypto provider, outside the repository). Argument order
follows the call sites: `ed25519Verify message signature publicKey`,
`ed25519Sign message privateKey`,
`x25519SharedSecret privateKey publicKey`. -/
structure CryptoPrim where
  ed25519Verify : List Nat → List Nat → List Nat → Bool
  ed25519Sign : List Nat → List Nat → List Nat
  x25519SharedSecret : List Nat → List Nat → List Nat
  sha256 : List Nat → List Nat

/-- `clearSession` (`part_002` lines 411-424): drop session and ephemeral
state, erase pairing, erase the client keypair, emit one pairing-required
notification (best effort). -/
def clearSession (reason : String) (st : ChannelState) : ChannelState :=
  { st with session := none, ephemeralKeyPair := none,
            storage := unpair st.storage,
            keyStore := clearClientKeypair st.keyStore,
            notifications := st.notifications ++ [reason] }

/-- Result shape of `beginHandshake`. -/
structure BeginResult where
  ok : Bool
  error : Option String
  sessionId : Option String
deriving DecidableEq

/-- Response of the desktop to `nmBeginHandshake`. -/
structure HandshakeResp where
  hostEphemeralPubB64 : List Nat
  signatureB64 : List Nat
  sessionId : String
deriving DecidableEq

/-- The catch block of `beginHandshake` (`part_002` lines 514-531). -/
def beginCatch (m : String) : BeginResult :=
  if strIncludes m IDENTITY_KEYS_UNAVAILABLE then
    ⟨false, some IDENTITY_KEYS_UNAVAILABLE, none⟩
  else ⟨false, some (jsOr m HANDSHAKE_FAILED), none⟩

/-- Session key derivation of `beginHandshake` (`part_002` lines 497-503):
SHA-256 of `sharedSecret ∥ transcript`, first 32 bytes. -/
def deriveSessionKey (cp : CryptoPrim) (sharedSecret transcript : List Nat) :
    List Nat :=
  (cp.sha256 (sharedSecret ++ transcript)).take 32

/-- `beginHandshake` (`part_002` lines 430-532). `eph` is the freshly
generated X25519 ephemeral keypair; `resp` is the desktop's response to
`nmBeginHandshake` (or the thrown transport error). The inline match on
`inMemoryKeypair` is `getOrCreateClientIdentity` =
`ensureClientKeypairUnlocked()` called with no password: it returns the
cached keypair or throws (`UnlockInProgress` when an unlock is in flight,
else `MasterPasswordRequired`), and the throw lands in the catch block. -/
def beginHandshake (cp : CryptoPrim) (eph : KeyPair)
    (resp : Except String HandshakeResp) (st : ChannelState) :
    BeginResult × ChannelState :=
  let st1 := { st with ephemeralKeyPair := some eph,
                       nmLog := st.nmLog ++ [.nmBeginHandshake eph.publicKey] }
  match resp with
  | Except.error m => (beginCatch m, st1)
  | Except.ok r =>
    match getPinnedIdentity st1.storage with
    | none => (⟨false, some NOT_PAIRED, none⟩, clearSession NOT_PAIRED st1)
    | some pinned =>
      match st1.keyStore.inMemoryKeypair with
      | none =>
        (beginCatch (if st1.keyStore.unlocking then UNLOCK_IN_PROGRESS
                     else MASTER_PASSWORD_REQUIRED), st1)
      | some clientIdentity =>
        let transcript :=
          r.hostEphemeralPubB64 ++ eph.publicKey ++ clientIdentity.publicKey
        if cp.ed25519Verify transcript r.signatureB64 pinned.ed25519PublicKey
        then
          let sharedSecret :=
            cp.x25519SharedSecret eph.privateKey r.hostEphemeralPubB64
          let key := deriveSessionKey cp sharedSecret transcript
          (⟨true, none, some r.sessionId⟩,
           { st1 with session := some ⟨r.sessionId, key, 0, r.hostEphemeralPubB64⟩ })
        else (⟨false, some SIGNATURE_INVALID, none⟩, st1)

/-- Result shape of `finishHandshake` (also the desktop's `nmFinishHandshake`
response, returned through unchanged). -/
structure FinishResult where
  ok : Bool
  error : Option String
deriving DecidableEq

/-- A keypair whose byte arrays have been overwritten with zeros
(`fill(0)`). -/
def zeroKeyPair (kp : KeyPair) : KeyPair :=
  ⟨kp.publicKey.map (fun _ => 0), kp.privateKey.map (fun _ => 0)⟩

/-- The `finally` block of `finishHandshake` (`part_002` lines 590-603):
zero the ephemeral keypair bytes and discard the keypair. -/
def wipeEphemeral (st : ChannelState) : ChannelState :=
  match st.ephemeralKeyPair with
  | none => st
  | some kp => { st with ephemeralKeyPair := none,
                         wipedKeyPairs := st.wipedKeyPairs ++ [zeroKeyPair kp] }

/-- The catch block of `finishHandshake` (`part_002` lines 585-589). -/
def finishCatch (m : String) : FinishResult := ⟨false, some (jsOr m HANDSHAKE_FAILED)⟩

/-- The try/catch body of `finishHandshake` (`part_002` lines 539-589),
before the `finally` wipe. `resp` is the desktop's response to
`nmFinishHandshake` (or the thrown transport error). -/
def finishHandshakeBody (cp : CryptoPrim) (resp : Except String FinishResult)
    (st : ChannelState) : FinishResult × ChannelState :=
  match st.session with
    | none => (finishCatch NO_SESSION, st)
    | some s =>
      if s.id = "" then (finishCatch NO_SESSION, st)
      else
        match st.ephemeralKeyPair with
        | none => (finishCatch HANDSHAKE_FAILED, st)
        | some eph =>
          if s.hostEphemeralPubB64.isEmpty then (finishCatch HANDSHAKE_FAILED, st)
          else if s.hostEphemeralPubB64.length ≠ 32 then
            (finishCatch HANDSHAKE_FAILED, st)
          else
            match st.keyStore.inMemoryKeypair with
            | none =>
              (finishCatch (if st.keyStore.unlocking then UNLOCK_IN_PROGRESS
                            else MASTER_PASSWORD_REQUIRED), st)
            | some clientIdentity =>
              let transcript := strToBytes CLIENT_FINISH_TAG ++ strToBytes s.id ++
                s.hostEphemeralPubB64 ++ eph.publicKey ++ clientIdentity.publicKey
              let sig := cp.ed25519Sign transcript clientIdentity.privateKey
              let st2 := { st with nmLog := st.nmLog ++ [.nmFinishHandshake s.id sig] }
              match resp with
              | Except.error m => (finishCatch m, st2)
              | Except.ok res => (res, st2)

/-- `finishHandshake` (`part_002` lines 538-604): the try/catch body followed
by the `finally` wipe, which applies on every path. -/
def finishHandshake (cp : CryptoPrim) (resp : Except String FinishResult)
    (st : ChannelState) : FinishResult × ChannelState :=
  ((finishHandshakeBody cp resp st).1,
   wipeEphemeral (finishHandshakeBody cp resp st).2)

/-- Environment of one handshake run: the generated ephemeral keypair and
the desktop's two responses. -/
structure HsEnv where
  eph : KeyPair
  beginResp : Except String HandshakeResp
  finishResp : Except String FinishResult

/-- The keypair-readiness check at the top of `_performHandshake`
(`part_002` lines 248-262): `ensureClientKeypairUnlocked()` with no password
either succeeds (cached keypair), or throws; only a thrown message containing
`MasterPasswordRequired` is rethrown, other keystore errors are swallowed. -/
def identityCheck (st : ChannelState) : Option String :=
  match st.keyStore.inMemoryKeypair with
  | some _ => none
  | none =>
    let m := if st.keyStore.unlocking then UNLOCK_IN_PROGRESS
             else MASTER_PASSWORD_REQUIRED
    if strIncludes m MASTER_PASSWORD_REQUIRED then some m else none

/-- `_performHandshake` (`part_002` lines 241-305). -/
def performHandshake (cp : CryptoPrim) (env : HsEnv) (st : ChannelState) :
    Except String Unit × ChannelState :=
  if isPaired st.storage = false then
    (Except.error NOT_PAIRED, clearSession NOT_PAIRED st)
  else
    match identityCheck st with
    | some m => (Except.error m, st)
    | none =>
      match beginHandshake cp env.eph env.beginResp st with
      | (hs, st1) =>
        if hs.ok = false then
          if hs.error = some IDENTITY_KEYS_UNAVAILABLE then
            (Except.error (IDENTITY_KEYS_UNAVAILABLE ++ ": Desktop requires pairing reset"),
             clearSession IDENTITY_KEYS_UNAVAILABLE st1)
          else (Except.error (jsOrOpt hs.error HANDSHAKE_FAILED), st1)
        else
          match finishHandshake cp env.finishResp st1 with
          | (fin, st2) =>
            if fin.ok then (Except.ok (), st2)
            else
              match fin.error with
              | some s =>
                if s = "" then
                  (Except.error HANDSHAKE_FINISH_FAILED,
                   clearSession HANDSHAKE_FINISH_FAILED st2)
                else if strIncludes s MASTER_PASSWORD_REQUIRED ||
                    strIncludes s CLIENT_SIGNATURE_INVALID ||
                    strIncludes s SIGNATURE_INVALID then
                  (Except.error s, st2)
                else (Except.error s, clearSession s st2)
              | none =>
                (Except.error HANDSHAKE_FINISH_FAILED,
                 clearSession HANDSHAKE_FINISH_FAILED st2)

/-- `hasActiveSession` (`part_002` lines 209-211): `!!this._session?.id`. -/
def hasActiveSession (st : ChannelState) : Bool :=
  match st.session with
  | some s => s.id ≠ ""
  | none => false

/-- `ensureSession` (`part_002` lines 219-234). The single-slot handshake
promise only matters for overlapping callers; in this sequential model each
call either returns at once or performs one handshake. The ghost counter
`ensureCalls` records each invocation. -/
def ensureSession (cp : CryptoPrim) (env : HsEnv) (st : ChannelState) :
    Except String Unit × ChannelState :=
  let st0 := { st with ensureCalls := st.ensureCalls + 1 }
  if hasActiveSession st0 then (Except.ok (), st0)
  else performHandshake cp env st0

/-- Response of the desktop to `nmSecureRequest`. -/
structure SecureResp where
  nonceB64 : List Nat
  ciphertextB64 : List Nat
deriving DecidableEq

/-- Environment of one `secureRequest` call: the generated nonce and desktop
response of the first attempt, the handshake environment of the (potential)
retry, and the nonce and response of the (potential) second attempt. -/
structure SecureEnv where
  nonce1 : List Nat
  resp1 : Except String SecureResp
  hsEnv : HsEnv
  nonce2 : List Nat
  resp2 : Except String SecureResp

/-- The inner `attempt` closure of `secureRequest` (`part_002` lines
614-649): bump the sequence counter, encrypt, send, decrypt and parse the
response. The `none` session branch is the JS `TypeError` a vanished session
would raise; it is unreachable from the modelled call sites. -/
def attempt (method params : String) (nonce : List Nat)
    (resp : Except String SecureResp) (st : ChannelState) :
    Except String (List Nat) × ChannelState :=
  match st.session with
  | none => (Except.error SESSION_TYPE_ERROR, st)
  | some s =>
    let seq := s.seq + 1
    let ciphertext := secretbox (reqBytes method params) nonce s.key
    let st1 := { st with
      session := some ({ s with seq := seq }),
      nmLog := st.nmLog ++ [.nmSecureRequest s.id nonce ciphertext seq] }
    match resp with
    | Except.error m => (Except.error m, st1)
    | Except.ok r =>
      match secretboxOpen r.ciphertextB64 r.nonceB64 s.key with
      | none => (Except.error DECRYPT_FAILED, st1)
      | some pt =>
        match respDecode pt with
        | none => (Except.error JSON_PARSE_ERROR, st1)
        | some d =>
          if d.ok then (Except.ok d.result, st1)
          else (Except.error (jsOrOpt d.error SECURE_REQUEST_FAILED), st1)

/-- The retry guard of `secureRequest` (`part_002` lines 655-661). -/
def retryable (e : String) : Bool :=
  e == DECRYPT_FAILED || e == SECURE_REQUEST_FAILED || e == NO_SESSION ||
    e == SESSION_NOT_FOUND || strIncludes e SESSION_NOT_FOUND

/-- Identity-level error classification of the retry's failure
(`part_002` lines 670-674). -/
def identityLevelMsg (m : String) : Bool :=
  strIncludes m IDENTITY_KEYS_UNAVAILABLE || strIncludes m NOT_PAIRED ||
    strIncludes m SIGNATURE_INVALID

/-- `retryError?.message || e?.message || ''` (`part_002` line 669). -/
def fallbackMsg (retryErr firstErr : String) : String :=
  jsOr retryErr (jsOr firstErr "")

/-- The retry-failure handler of `secureRequest` (`part_002` lines 667-677):
clear pairing on identity-level causes, then rethrow the retry's error. -/
def classifyRetry (retryErr firstErr : String) (st : ChannelState) :
    Except String (List Nat) × ChannelState :=
  if identityLevelMsg (fallbackMsg retryErr firstErr) then
    (Except.error retryErr, clearSession (fallbackMsg retryErr firstErr) st)
  else (Except.error retryErr, st)

/-- The state after the first failed attempt with the stale session dropped
(`this._session = undefined`, `part_002` line 663). -/
def retryState (method params : String) (env : SecureEnv) (st : ChannelState) :
    ChannelState :=
  { (attempt method params env.nonce1 env.resp1 st).2 with session := none }

/-- `secureRequest` (`part_002` lines 611-682). The initial no-session check
sits outside the try block, so its throw is never retried. -/
def secureRequest (cp : CryptoPrim) (method params : String) (env : SecureEnv)
    (st : ChannelState) : Except String (List Nat) × ChannelState :=
  match st.session with
  | none => (Except.error NO_SESSION, st)
  | some _ =>
    match (attempt method params env.nonce1 env.resp1 st).1 with
    | Except.ok v => (Except.ok v, (attempt method params env.nonce1 env.resp1 st).2)
    | Except.error e =>
      if retryable e then
        match (ensureSession cp env.hsEnv (retryState method params env st)).1 with
        | Except.ok _ =>
          match (attempt method params env.nonce2 env.resp2
              (ensureSession cp env.hsEnv (retryState method params env st)).2).1 with
          | Except.ok v =>
            (Except.ok v, (attempt method params env.nonce2 env.resp2
              (ensureSession cp env.hsEnv (retryState method params env st)).2).2)
          | Except.error re =>
            classifyRetry re e (attempt method params env.nonce2 env.resp2
              (ensureSession cp env.hsEnv (retryState method params env st)).2).2
        | Except.error he =>
          classifyRetry he e
            (ensureSession cp env.hsEnv (retryState method params env st)).2
      else (Except.error e, (attempt method params env.nonce1 env.resp1 st).2)

/-- Sequential driver: perform one `secureRequest` per environment in the
list, collecting the results. -/
def runSecureRequests (cp : CryptoPrim) (method params : String) :
    List SecureEnv → ChannelState →
    List (Except String (List Nat)) × ChannelState
  | [], st => ([], st)
  | env :: rest, st =>
    match secureRequest cp method params env st with
    | (r, st1) =>
      match runSecureRequests cp method params rest st1 with
      | (rs, st2) => (r :: rs, st2)

/-- The sequence numbers carried by the `nmSecureRequest` entries of a
request log, in send order. -/
def secureSeqs (l : List NmRequest) : List Nat :=
  l.filterMap fun r =>
    match r with
    | .nmSecureRequest _ _ _ q => some q
    | _ => none

/-- Number of `nmSecureRequest` entries in a request log. -/
def countSec (l : List NmRequest) : Nat := (secureSeqs l).length

/-- A first-attempt environment whose desktop response decrypts under `key`
and parses to a payload with `ok = true`. -/
def goodResp (key : List Nat) (env : SecureEnv) : Bool :=
  match env.resp1 with
  | Except.error _ => false
  | Except.ok r =>
    match secretboxOpen r.ciphertextB64 r.nonceB64 key with
    | none => false
    | some pt =>
      match respDecode pt with
      | none => false
      | some d => d.ok

/-- Observable behaviour of the retry path of `secureRequest`, given that the
first attempt failed with retryable error `e`: the stale session is dropped
and `ensureSession` runs exactly once; exactly one further encrypted attempt
is sent iff the re-handshake succeeded; a failure of the combined retry
(re-handshake or second attempt) with an identity-level message clears
pairing, while for any other message the classifier leaves the state exactly
as the retry left it and the retry's own error is surfaced unchanged. -/
def retryPolicySpec (cp : CryptoPrim) (method params : String)
    (env : SecureEnv) (st : ChannelState) (e : String) : Prop :=
  let out := secureRequest cp method params env st
  let hsRun := ensureSession cp env.hsEnv (retryState method params env st)
  let second := attempt method params env.nonce2 env.resp2 hsRun.2
  countSec out.2.nmLog = countSec st.nmLog + 1 +
      (match hsRun.1 with | Except.ok _ => 1 | Except.error _ => 0) ∧
  out.2.ensureCalls = st.ensureCalls + 1 ∧
  (∀ he, hsRun.1 = Except.error he →
    out.1 = Except.error he ∧
    (identityLevelMsg (fallbackMsg he e) = true →
      out.2 = clearSession (fallbackMsg he e) hsRun.2 ∧
      getPinnedIdentity out.2.storage = none) ∧
    (identityLevelMsg (fallbackMsg he e) = false → out.2 = hsRun.2)) ∧
  (hsRun.1 = Except.ok () →
    (∀ v, second.1 = Except.ok v → out = (Except.ok v, second.2)) ∧
    (∀ re, second.1 = Except.error re →
      out.1 = Except.error re ∧
      (identityLevelMsg (fallbackMsg re e) = true →
        out.2 = clearSession (fallbackMsg re e) second.2 ∧
        getPinnedIdentity out.2.storage = none) ∧
      (identityLevelMsg (fallbackMsg re e) = false → out.2 = second.2)))

/-! ### Concrete instantiation used by the witnesses -/

/-- Crypto provider whose signature verification accepts. -/
def cpTrue : CryptoPrim :=
  ⟨fun _ _ _ => true, fun m _ => m, fun a b => a ++ b, fun l => l⟩

/-- Crypto provider whose signature verification rejects. -/
def cpFalse : CryptoPrim :=
  ⟨fun _ _ _ => false, fun m _ => m, fun a b => a ++ b, fun l => l⟩

/-- Concrete client identity keypair. -/
def ckW : KeyPair := ⟨[3, 4], [5, 6]⟩

/-- Key store with the client keypair unlocked in memory. -/
def ksW : KeyStoreState := ⟨some ckW, none, false, none⟩

/-- Key store with nothing unlocked and no persisted record. -/
def ksLocked : KeyStoreState := ⟨none, none, false, some ⟨[30], [31], [32], [33]⟩⟩

/-- Storage with a complete pinned identity. -/
def storW : Storage := ⟨some "fp", some [1], some [2], some true⟩

/-- The pinned identity held by `storW`. -/
def pidW : PinnedIdentity := ⟨"fp", [1], [2]⟩

/-- A live session with sequence counter 0. -/
def sessW : Session := ⟨"sid", [7, 8], 0, List.replicate 32 9⟩

/-- Paired channel state holding the live session. -/
def stW : ChannelState := ⟨storW, ksW, some sessW, none, [], [], [], 0⟩

/-- Paired channel state with no session. -/
def stNoSess : ChannelState := ⟨storW, ksW, none, none, [], [], [], 0⟩

/-- Unpaired channel state (no pinned identity at all). -/
def stUnpaired : ChannelState := ⟨⟨none, none, none, none⟩, ksW, none, none, [], [], [], 0⟩

/-- Concrete ephemeral keypair. -/
def ephW : KeyPair := ⟨[10, 11], [12, 13]⟩

/-- Concrete desktop handshake response (32-byte host ephemeral key). -/
def hrW : HandshakeResp := ⟨List.replicate 32 7, [9], "s2"⟩

/-- Handshake environment whose finish step fails with the non-identity
error message Boom. -/
def hsEnvBoom : HsEnv := ⟨ephW, Except.ok hrW, Except.ok ⟨false, some "Boom"⟩⟩

/-- Secure-request environment whose first response is undecryptable and
whose retry re-handshake fails with Boom. -/
def envBoom : SecureEnv := ⟨[1], Except.ok ⟨[2], []⟩, hsEnvBoom, [3], Except.ok ⟨[4], []⟩⟩

/-- Trivial external WebCrypto for the key store. -/
def kcW : KsCrypto := ⟨fun _ _ => ([], [], []), fun _ _ => none⟩

/-- Concrete freshly generated keypair parameter. -/
def kpNew : KeyPair := ⟨[20], [21]⟩

/-- Serialized successful response payload. -/
def respOkBytes : List Nat := respEncode ⟨true, [9], none⟩

/-- Secure-request environment carrying a genuine encrypted `ok` response
for the session key of `sessW`. -/
def goodEnvW : SecureEnv :=
  ⟨[1], Except.ok ⟨[2], secretbox respOkBytes [2] sessW.key⟩, hsEnvBoom, [3],
    Except.ok ⟨[4], []⟩⟩

/-! ## Helper lemmas -/

theorem xorBytes_cancel (a : List Nat) :
    ∀ b : List Nat, a.length ≤ b.length → xorBytes (xorBytes a b) b = a := by
  induction a with
  | nil => intro b _; rfl
  | cons x xs ih =>
    intro b hb
    cases b with
    | nil => simp at hb
    | cons y ys =>
      simp only [xorBytes, List.zipWith] at *
      rw [Nat.xor_assoc, Nat.xor_self, Nat.xor_zero,
        ih ys (Nat.le_of_succ_le_succ hb)]

theorem length_keystream (key nonce : List Nat) (len : Nat) :
    (keystream key nonce len).length = len := by
  simp [keystream]

theorem length_streamMask (key nonce pt : List Nat) :
    (streamMask key nonce pt).length = pt.length := by
  simp [streamMask, xorBytes, length_keystream]

theorem length_tagBytes (key nonce ct : List Nat) :
    (tagBytes key nonce ct).length = 16 := by
  simp [tagBytes]

/-- Round trip of the secretbox wrappers: decrypting a genuine ciphertext
under the same key and nonce returns the original payload. -/
theorem secretboxOpen_secretbox (pt nonce key : List Nat) :
    secretboxOpen (secretbox pt nonce key) nonce key = some pt := by
  have htag := length_tagBytes key nonce (streamMask key nonce pt)
  have hlen : (secretbox pt nonce key).length =
      16 + (streamMask key nonce pt).length := by
    simp [secretbox, htag]
  have hdrop : (secretbox pt nonce key).drop 16 = streamMask key nonce pt :=
    List.drop_left' htag
  have htake : (secretbox pt nonce key).take 16 =
      tagBytes key nonce (streamMask key nonce pt) :=
    List.take_left' htag
  unfold secretboxOpen nobleSecretboxDecrypt
  rw [hlen, hdrop, htake, if_neg (by omega), if_pos rfl]
  rw [length_streamMask]
  unfold streamMask
  rw [xorBytes_cancel pt (keystream key nonce pt.length)
    (by rw [length_keystream])]

theorem respDecode_respEncode_none (ok : Bool) (res : List Nat) :
    respDecode (respEncode ⟨ok, res, none⟩) = some ⟨ok, res, none⟩ := by
  have hdrop : (res ++ [0]).drop res.length = [0] := List.drop_left' rfl
  have htake : (res ++ [0]).take res.length = res := List.take_left' rfl
  unfold respEncode respDecode
  simp only []
  rw [if_pos (by simp), hdrop, htake]
  cases ok <;> rfl

theorem getPinnedIdentity_unpair (s : Storage) :
    getPinnedIdentity (unpair s) = none := rfl

theorem countSec_append (l1 l2 : List NmRequest) :
    countSec (l1 ++ l2) = countSec l1 + countSec l2 := by
  simp [countSec, secureSeqs, List.filterMap_append]

/-! ## Claim theorems -/

/-- Claim C7, counterexample: after `unpair()` the paired flag is not absent
from storage; it is present with value `false` (the source writes
`[STORAGE_KEYS.paired]: false`, not `undefined`), so "all four locally
persisted pairing fields are absent" fails on the fourth field. -/
theorem unpair_paired_flag_present :
    (unpair storW).paired = some false ∧ (unpair storW).paired ≠ none ∧
    storW.paired = some true := by
  refine ⟨rfl, ?_, rfl⟩
  intro h
  exact Option.noConfusion h

/-- Claim C7, amended: after `unpair()` the three identity fields
(fingerprint, signing key, exchange key) are absent, the paired flag is
present with value `false`, a subsequent `getPinnedIdentity()` returns
nothing and `isPaired()` is false. -/
theorem unpair_clears_identity (s : Storage) :
    (unpair s).fingerprint = none ∧ (unpair s).ed25519PublicKey = none ∧
    (unpair s).x25519PublicKey = none ∧ (unpair s).paired = some false ∧
    getPinnedIdentity (unpair s) = none ∧ isPaired (unpair s) = false :=
  ⟨rfl, rfl, rfl, rfl, rfl, rfl⟩

/-- Claim C10: a `secureRequest` call made while no session object is held
throws `NoSession` immediately — the state (including the request log and
the `ensureSession` counter) is returned unchanged for every environment and
crypto provider, so nothing was encrypted, no re-handshake ran and no retry
happened; the retry policy only applies to errors raised by an attempt on an
existing session. -/
theorem secureRequest_no_session (cp : CryptoPrim) (method params : String)
    (env : SecureEnv) (st : ChannelState) (h : st.session = none) :
    secureRequest cp method params env st = (Except.error NO_SESSION, st) := by
  unfold secureRequest
  rw [h]

/-- Witness for C10 at a concrete paired-but-sessionless state. -/
theorem secureRequest_no_session_witness :
    secureRequest cpTrue "getRecords" "params" envBoom stNoSess =
      (Except.error NO_SESSION, stNoSess) :=
  secureRequest_no_session cpTrue "getRecords" "params" envBoom stNoSess rfl

/-- Claim C9: `ensureClientKeypairUnlocked` returns the cached keypair
untouched whenever one is unlocked in memory, for any supplied secret
including none at all; otherwise, when no concurrent unlock is in flight and
the supplied secret is absent or empty, it rejects with the distinct
master-password-required error and the whole store state — in particular the
persisted record — is unchanged. The error is distinct from both the
invalid-password and the concurrent-unlock errors. -/
theorem ensureClientKeypairUnlocked_spec (kc : KsCrypto) (newKp : KeyPair)
    (ks : KeyStoreState) (pw : Option String) :
    (∀ kp, ks.inMemoryKeypair = some kp →
      ensureClientKeypairUnlocked kc newKp ks pw = (Except.ok kp, ks)) ∧
    (ks.inMemoryKeypair = none → ks.unlocking = false →
      (pw = none ∨ pw = some "") →
      ensureClientKeypairUnlocked kc newKp ks pw =
        (Except.error MASTER_PASSWORD_REQUIRED, ks)) ∧
    MASTER_PASSWORD_REQUIRED ≠ MASTER_PASSWORD_INVALID ∧
    MASTER_PASSWORD_REQUIRED ≠ UNLOCK_IN_PROGRESS := by
  refine ⟨?_, ?_, by decide, by decide⟩
  · intro kp hk
    unfold ensureClientKeypairUnlocked
    rw [hk]
  · intro hk hu hpw
    unfold ensureClientKeypairUnlocked
    rw [hk, hu]
    rcases hpw with h | h <;> rw [h] <;> rfl

/-- Witness for C9: the cached branch at a concrete unlocked store with no
secret supplied, and the missing-secret branch at a concrete locked store
that still holds a persisted record. -/
theorem ensureClientKeypairUnlocked_spec_witness :
    ensureClientKeypairUnlocked kcW kpNew ksW none = (Except.ok ckW, ksW) ∧
    ensureClientKeypairUnlocked kcW kpNew ksLocked none =
      (Except.error MASTER_PASSWORD_REQUIRED, ksLocked) ∧
    ksLocked.record = some ⟨[30], [31], [32], [33]⟩ :=
  ⟨(ensureClientKeypairUnlocked_spec kcW kpNew ksW none).1 ckW rfl,
   (ensureClientKeypairUnlocked_spec kcW kpNew ksLocked none).2.1 rfl rfl
     (Or.inl rfl),
   rfl⟩

/-- Claim C8, amended: encrypting then decrypting any byte payload under the
same session key and nonce returns the original bytes; any ciphertext whose
16-byte authentication tag does not match the keyed tag of its body is
rejected with the `null` failure indicator; and every cipher-level throw of
the underlying decrypt is converted by `secretboxOpen` to `null` rather than
propagating as an unhandled fault. (The unamended "every tampered
ciphertext returns null" fails: substituting a different validly encrypted
ciphertext is a tampering that decrypts to attacker-chosen plaintext.) -/
theorem secretbox_roundtrip_and_auth (pt c nonce key : List Nat) (e : String) :
    (secretboxOpen (secretbox pt nonce key) nonce key = some pt) ∧
    (c.take 16 ≠ tagBytes key nonce (c.drop 16) → secretboxOpen c nonce key = none) ∧
    (nobleSecretboxDecrypt c nonce key = Except.error e →
      secretboxOpen c nonce key = none) := by
  refine ⟨secretboxOpen_secretbox pt nonce key, ?_, ?_⟩
  · intro htag
    unfold secretboxOpen nobleSecretboxDecrypt
    by_cases hlen : c.length < 16
    · rw [if_pos hlen]
    · rw [if_neg hlen, if_neg htag]
  · intro herr
    unfold secretboxOpen
    rw [herr]

/-- Witness for C8 at concrete payloads: a genuine round trip, a tag-breaking
tampered ciphertext rejected with the null indicator, and a cipher-level
throw converted to null. -/
theorem secretbox_roundtrip_and_auth_witness :
    secretboxOpen (secretbox [5, 6] [7] [8]) [7] [8] = some [5, 6] ∧
    secretboxOpen (List.replicate 20 0) [7] [8] = none ∧
    secretboxOpen [] [7] [8] = none :=
  ⟨(secretbox_roundtrip_and_auth [5, 6] (List.replicate 20 0) [7] [8] "invalid tag").1,
   (secretbox_roundtrip_and_auth [5, 6] (List.replicate 20 0) [7] [8] "invalid tag").2.1
     (by decide),
   (secretbox_roundtrip_and_auth [5, 6] [] [7] [8] "invalid tag").2.2 (by decide)⟩

/-- Claim C8, counterexample: replacing the genuine encryption of `[0]` with
the (different) genuine encryption of `[1]` is a tampering after which
`secretboxOpen` returns attacker-chosen plaintext `some [1]` — neither the
null failure indicator nor the original payload. -/
theorem secretbox_tamper_counterexample :
    secretbox [1] [4] [1, 2, 3] ≠ secretbox [0] [4] [1, 2, 3] ∧
    secretboxOpen (secretbox [1] [4] [1, 2, 3]) [4] [1, 2, 3] = some [1] ∧
    (some [1] : Option (List Nat)) ≠ none ∧
    (some [1] : Option (List Nat)) ≠ some [0] := by
  refine ⟨by decide, by decide, by decide, by decide⟩

theorem finishHandshakeBody_ephemeral (cp : CryptoPrim)
    (resp : Except String FinishResult) (st : ChannelState) :
    (finishHandshakeBody cp resp st).2.ephemeralKeyPair = st.ephemeralKeyPair ∧
    (finishHandshakeBody cp resp st).2.wipedKeyPairs = st.wipedKeyPairs := by
  unfold finishHandshakeBody
  constructor <;> (repeat' split) <;> rfl

theorem wipeEphemeral_spec (st : ChannelState) :
    (wipeEphemeral st).ephemeralKeyPair = none ∧
    (wipeEphemeral st).wipedKeyPairs =
      st.wipedKeyPairs ++ st.ephemeralKeyPair.toList.map zeroKeyPair := by
  unfold wipeEphemeral
  cases h : st.ephemeralKeyPair <;> simp [h]

/-- Claim C6: whatever `finishHandshake` does — success, a failure result, or
a caught exception on any of its throw sites — the ephemeral handshake
keypair is gone from the instance state when it returns, and the zeroized
copy appended to the wipe trace consists entirely of zero bytes. -/
theorem finishHandshake_wipes_ephemeral (cp : CryptoPrim)
    (resp : Except String FinishResult) (st : ChannelState) :
    (finishHandshake cp resp st).2.ephemeralKeyPair = none ∧
    (finishHandshake cp resp st).2.wipedKeyPairs =
      st.wipedKeyPairs ++ st.ephemeralKeyPair.toList.map zeroKeyPair ∧
    ∀ kp : KeyPair, (zeroKeyPair kp).publicKey.all (fun b => b == 0) = true ∧
      (zeroKeyPair kp).privateKey.all (fun b => b == 0) = true := by
  have hb := finishHandshakeBody_ephemeral cp resp st
  have hw := wipeEphemeral_spec (finishHandshakeBody cp resp st).2
  refine ⟨hw.1, ?_, ?_⟩
  · show (wipeEphemeral (finishHandshakeBody cp resp st).2).wipedKeyPairs = _
    rw [hw.2, hb.1, hb.2]
  · intro kp
    constructor <;> simp [zeroKeyPair]

/-- Claim C1: when `beginHandshake` reaches a stored session (pinned identity
present, client identity cached, desktop signature valid over the transcript
host-ephemeral ∥ own-ephemeral ∥ client-public), the stored symmetric key is
exactly `deriveSessionKey`, i.e. the SHA-256 hash of
sharedSecret ∥ transcript truncated to the first 32 bytes, the stored
sequence counter is 0, and the derivation is a pure function of the shared
secret and transcript — identical inputs yield identical keys. -/
theorem beginHandshake_key_derivation (cp : CryptoPrim) (eph : KeyPair)
    (r : HandshakeResp) (st : ChannelState) (pid : PinnedIdentity) (ck : KeyPair)
    (hp : getPinnedIdentity st.storage = some pid)
    (hk : st.keyStore.inMemoryKeypair = some ck)
    (hv : cp.ed25519Verify
      (r.hostEphemeralPubB64 ++ eph.publicKey ++ ck.publicKey)
      r.signatureB64 pid.ed25519PublicKey = true) :
    (beginHandshake cp eph (Except.ok r) st).2.session =
      some ⟨r.sessionId,
        deriveSessionKey cp
          (cp.x25519SharedSecret eph.privateKey r.hostEphemeralPubB64)
          (r.hostEphemeralPubB64 ++ eph.publicKey ++ ck.publicKey),
        0, r.hostEphemeralPubB64⟩ ∧
    (∀ sh tr : List Nat,
      deriveSessionKey cp sh tr = (cp.sha256 (sh ++ tr)).take 32) ∧
    (∀ sh sh' tr tr' : List Nat, sh = sh' → tr = tr' →
      deriveSessionKey cp sh tr = deriveSessionKey cp sh' tr') ∧
    (beginHandshake cp eph (Except.ok r) st).1 = ⟨true, none, some r.sessionId⟩ := by
  have hv2 := hv
  rw [List.append_assoc] at hv2
  refine ⟨?_, fun sh tr => rfl, fun sh sh' tr tr' h1 h2 => by rw [h1, h2], ?_⟩ <;>
    · simp [beginHandshake, hp, hk]
      rw [if_pos hv2]

/-- Claim C3: with a pinned identity present and a cached client identity,
a handshake response whose signature fails verification makes
`beginHandshake` return a failure with reason SignatureInvalid, while the
stored pairing (in particular the pinned identity), the session slot and the
notification trace are all exactly what they were before. -/
theorem beginHandshake_signature_invalid (cp : CryptoPrim) (eph : KeyPair)
    (r : HandshakeResp) (st : ChannelState) (pid : PinnedIdentity) (ck : KeyPair)
    (hp : getPinnedIdentity st.storage = some pid)
    (hk : st.keyStore.inMemoryKeypair = some ck)
    (hv : cp.ed25519Verify
      (r.hostEphemeralPubB64 ++ eph.publicKey ++ ck.publicKey)
      r.signatureB64 pid.ed25519PublicKey = false) :
    (beginHandshake cp eph (Except.ok r) st).1 =
      ⟨false, some SIGNATURE_INVALID, none⟩ ∧
    (beginHandshake cp eph (Except.ok r) st).2.storage = st.storage ∧
    getPinnedIdentity (beginHandshake cp eph (Except.ok r) st).2.storage = some pid ∧
    (beginHandshake cp eph (Except.ok r) st).2.session = st.session ∧
    (beginHandshake cp eph (Except.ok r) st).2.notifications = st.notifications := by
  have hv' : cp.ed25519Verify
      (r.hostEphemeralPubB64 ++ (eph.publicKey ++ ck.publicKey))
      r.signatureB64 pid.ed25519PublicKey ≠ true := by
    rw [← List.append_assoc, hv]; decide
  refine ⟨?_, ?_, ?_, ?_, ?_⟩ <;>
    · simp [beginHandshake, hp, hk]
      rw [if_neg hv']
      try simp [hp]

/-- Claim C4: a `beginHandshake` call that received a desktop response while
no complete pinned identity is stored fails with reason NotPaired, erases
the local pairing fields and the client identity (cache and persisted
record), emits exactly one pairing-required notification carrying NotPaired,
and never consults the crypto provider — signature verification is not
attempted, so the outcome is identical for every provider. -/
theorem beginHandshake_not_paired (cp cp' : CryptoPrim) (eph : KeyPair)
    (r : HandshakeResp) (st : ChannelState)
    (hp : getPinnedIdentity st.storage = none) :
    (beginHandshake cp eph (Except.ok r) st).1 =
      ⟨false, some NOT_PAIRED, none⟩ ∧
    (beginHandshake cp eph (Except.ok r) st).2.storage = unpair st.storage ∧
    (beginHandshake cp eph (Except.ok r) st).2.storage.fingerprint = none ∧
    (beginHandshake cp eph (Except.ok r) st).2.storage.ed25519PublicKey = none ∧
    (beginHandshake cp eph (Except.ok r) st).2.storage.x25519PublicKey = none ∧
    (beginHandshake cp eph (Except.ok r) st).2.keyStore.inMemoryKeypair = none ∧
    (beginHandshake cp eph (Except.ok r) st).2.keyStore.record = none ∧
    (beginHandshake cp eph (Except.ok r) st).2.session = none ∧
    (beginHandshake cp eph (Except.ok r) st).2.notifications =
      st.notifications ++ [NOT_PAIRED] ∧
    beginHandshake cp eph (Except.ok r) st = beginHandshake cp' eph (Except.ok r) st := by
  refine ⟨?_, ?_, ?_, ?_, ?_, ?_, ?_, ?_, ?_, ?_⟩ <;>
    simp [beginHandshake, hp, clearSession, unpair, clearClientKeypair]

/-- Witness for C1 at a concrete paired state with an accepting provider. -/
theorem beginHandshake_key_derivation_witness :
    (beginHandshake cpTrue ephW (Except.ok hrW) stNoSess).2.session =
      some ⟨hrW.sessionId,
        deriveSessionKey cpTrue
          (cpTrue.x25519SharedSecret ephW.privateKey hrW.hostEphemeralPubB64)
          (hrW.hostEphemeralPubB64 ++ ephW.publicKey ++ ckW.publicKey),
        0, hrW.hostEphemeralPubB64⟩ ∧
    (∀ sh tr : List Nat,
      deriveSessionKey cpTrue sh tr = (cpTrue.sha256 (sh ++ tr)).take 32) ∧
    (∀ sh sh' tr tr' : List Nat, sh = sh' → tr = tr' →
      deriveSessionKey cpTrue sh tr = deriveSessionKey cpTrue sh' tr') ∧
    (beginHandshake cpTrue ephW (Except.ok hrW) stNoSess).1 =
      ⟨true, none, some hrW.sessionId⟩ :=
  beginHandshake_key_derivation cpTrue ephW hrW stNoSess pidW ckW (by decide)
    rfl rfl

/-- Witness for C3 at a concrete paired state with a rejecting provider. -/
theorem beginHandshake_signature_invalid_witness :
    (beginHandshake cpFalse ephW (Except.ok hrW) stNoSess).1 =
      ⟨false, some SIGNATURE_INVALID, none⟩ ∧
    (beginHandshake cpFalse ephW (Except.ok hrW) stNoSess).2.storage =
      stNoSess.storage ∧
    getPinnedIdentity
      (beginHandshake cpFalse ephW (Except.ok hrW) stNoSess).2.storage = some pidW ∧
    (beginHandshake cpFalse ephW (Except.ok hrW) stNoSess).2.session =
      stNoSess.session ∧
    (beginHandshake cpFalse ephW (Except.ok hrW) stNoSess).2.notifications =
      stNoSess.notifications :=
  beginHandshake_signature_invalid cpFalse ephW hrW stNoSess pidW ckW (by decide)
    rfl rfl

/-- Witness for C4 at a concrete unpaired state, with two different
providers showing the outcome does not consult the crypto provider. -/
theorem beginHandshake_not_paired_witness :
    (beginHandshake cpTrue ephW (Except.ok hrW) stUnpaired).1 =
      ⟨false, some NOT_PAIRED, none⟩ ∧
    (beginHandshake cpTrue ephW (Except.ok hrW) stUnpaired).2.storage =
      unpair stUnpaired.storage ∧
    (beginHandshake cpTrue ephW (Except.ok hrW) stUnpaired).2.storage.fingerprint = none ∧
    (beginHandshake cpTrue ephW (Except.ok hrW) stUnpaired).2.storage.ed25519PublicKey = none ∧
    (beginHandshake cpTrue ephW (Except.ok hrW) stUnpaired).2.storage.x25519PublicKey = none ∧
    (beginHandshake cpTrue ephW (Except.ok hrW) stUnpaired).2.keyStore.inMemoryKeypair = none ∧
    (beginHandshake cpTrue ephW (Except.ok hrW) stUnpaired).2.keyStore.record = none ∧
    (beginHandshake cpTrue ephW (Except.ok hrW) stUnpaired).2.session = none ∧
    (beginHandshake cpTrue ephW (Except.ok hrW) stUnpaired).2.notifications =
      stUnpaired.notifications ++ [NOT_PAIRED] ∧
    beginHandshake cpTrue ephW (Except.ok hrW) stUnpaired =
      beginHandshake cpFalse ephW (Except.ok hrW) stUnpaired :=
  beginHandshake_not_paired cpTrue cpFalse ephW hrW stUnpaired rfl

theorem secureRequest_good_step (cp : CryptoPrim) (m p : String)
    (env : SecureEnv) (st : ChannelState) (s : Session)
    (hs : st.session = some s) (hg : goodResp s.key env = true) :
    ∃ v, secureRequest cp m p env st =
      (Except.ok v,
       { st with
         session := some ({ s with seq := s.seq + 1 }),
         nmLog := st.nmLog ++ [NmRequest.nmSecureRequest s.id env.nonce1
           (secretbox (reqBytes m p) env.nonce1 s.key) (s.seq + 1)] }) := by
  unfold goodResp at hg
  rcases henv : env.resp1 with msg | r <;> simp only [henv] at hg
  · simp at hg
  · rcases hopen : secretboxOpen r.ciphertextB64 r.nonceB64 s.key with _ | pt <;>
      simp only [hopen] at hg
    · simp at hg
    · rcases hdec : respDecode pt with _ | d <;> simp only [hdec] at hg
      · simp at hg
      · refine ⟨d.result, ?_⟩
        unfold secureRequest attempt
        rw [hs]
        simp [henv, hopen, hdec, hg]

theorem runSecureRequests_good (cp : CryptoPrim) (m p : String) :
    ∀ (envs : List SecureEnv) (st : ChannelState) (s : Session),
      st.session = some s → envs.all (goodResp s.key) = true →
      secureSeqs (runSecureRequests cp m p envs st).2.nmLog =
        secureSeqs st.nmLog ++ List.range' (s.seq + 1) envs.length ∧
      ∀ r ∈ (runSecureRequests cp m p envs st).1, ∃ v, r = Except.ok v := by
  intro envs
  induction envs with
  | nil =>
    intro st s _ _
    refine ⟨by simp [runSecureRequests, List.range'], by simp [runSecureRequests]⟩
  | cons env rest ih =>
    intro st s hs hall
    simp only [List.all_cons, Bool.and_eq_true] at hall
    obtain ⟨v, hstep⟩ := secureRequest_good_step cp m p env st s hs hall.1
    have ih' := ih
      ({ st with
         session := some ({ s with seq := s.seq + 1 }),
         nmLog := st.nmLog ++ [NmRequest.nmSecureRequest s.id env.nonce1
           (secretbox (reqBytes m p) env.nonce1 s.key) (s.seq + 1)] })
      ({ s with seq := s.seq + 1 }) rfl hall.2
    unfold runSecureRequests
    rw [hstep]
    constructor
    · simp only []
      rw [ih'.1]
      simp [secureSeqs, List.filterMap_append, List.range']
    · intro r hr
      simp only [] at hr
      rcases List.mem_cons.mp hr with h | h
      · exact ⟨v, h⟩
      · exact ih'.2 r h

/-- Claim C5: starting from a session whose counter is 0 (as stored by a
successful handshake), N sequential `secureRequest` calls whose responses
decrypt and parse successfully send exactly the sequence numbers
1, 2, …, N — the strictly increasing, gap-free, repetition-free enumeration
`List.range' 1 N` appended to the log — and each call succeeds, so no number
is ever reused within the session's lifetime. -/
theorem secureRequest_sequence_monotonic (cp : CryptoPrim) (m p : String)
    (envs : List SecureEnv) (st : ChannelState) (s : Session)
    (hs : st.session = some s) (h0 : s.seq = 0)
    (hg : envs.all (goodResp s.key) = true) :
    secureSeqs (runSecureRequests cp m p envs st).2.nmLog =
      secureSeqs st.nmLog ++ List.range' 1 envs.length ∧
    ∀ r ∈ (runSecureRequests cp m p envs st).1, ∃ v, r = Except.ok v := by
  have h := runSecureRequests_good cp m p envs st s hs hg
  rw [h0] at h
  exact h

/-- Witness for C5: two sequential calls on the concrete session `sessW`
(counter 0) with genuine encrypted `ok` responses send exactly the sequence
numbers 1 and 2. -/
theorem secureRequest_sequence_monotonic_witness :
    secureSeqs (runSecureRequests cpTrue "m" "p" [goodEnvW, goodEnvW] stW).2.nmLog =
      secureSeqs stW.nmLog ++ List.range' 1 2 ∧
    ∀ r ∈ (runSecureRequests cpTrue "m" "p" [goodEnvW, goodEnvW] stW).1,
      ∃ v, r = Except.ok v :=
  secureRequest_sequence_monotonic cpTrue "m" "p" [goodEnvW, goodEnvW] stW sessW
    rfl rfl (by decide)

theorem attempt_effects (m p : String) (nonce : List Nat)
    (resp : Except String SecureResp) (st : ChannelState) (s : Session)
    (hs : st.session = some s) :
    countSec (attempt m p nonce resp st).2.nmLog = countSec st.nmLog + 1 ∧
    (attempt m p nonce resp st).2.ensureCalls = st.ensureCalls := by
  unfold attempt
  rw [hs]
  simp only []
  constructor <;> (repeat' split) <;>
    simp [countSec_append, countSec, secureSeqs]

theorem beginHandshake_log_ensure (cp : CryptoPrim) (eph : KeyPair)
    (resp : Except String HandshakeResp) (st : ChannelState) :
    (beginHandshake cp eph resp st).2.nmLog =
      st.nmLog ++ [NmRequest.nmBeginHandshake eph.publicKey] ∧
    (beginHandshake cp eph resp st).2.ensureCalls = st.ensureCalls := by
  constructor <;> simp only [beginHandshake] <;> (repeat' split) <;> rfl

theorem beginHandshake_ok_session (cp : CryptoPrim) (eph : KeyPair)
    (resp : Except String HandshakeResp) (st : ChannelState)
    (bres : BeginResult) (st1 : ChannelState)
    (hb : beginHandshake cp eph resp st = (bres, st1)) (hok : bres.ok = true) :
    st1.session.isSome = true := by
  unfold beginHandshake beginCatch at hb
  simp only [] at hb
  repeat' split at hb
  all_goals
    (injection hb with h1 h2; subst h1; subst h2;
     first | rfl | (exact absurd hok (by simp)))

theorem finishHandshakeBody_effects (cp : CryptoPrim)
    (resp : Except String FinishResult) (st : ChannelState) :
    countSec (finishHandshakeBody cp resp st).2.nmLog = countSec st.nmLog ∧
    (finishHandshakeBody cp resp st).2.ensureCalls = st.ensureCalls ∧
    (finishHandshakeBody cp resp st).2.session = st.session := by
  unfold finishHandshakeBody
  refine ⟨?_, ?_, ?_⟩ <;> (repeat' split) <;>
    simp [countSec_append, countSec, secureSeqs]

theorem wipeEphemeral_effects (st : ChannelState) :
    (wipeEphemeral st).nmLog = st.nmLog ∧
    (wipeEphemeral st).ensureCalls = st.ensureCalls ∧
    (wipeEphemeral st).session = st.session := by
  unfold wipeEphemeral
  refine ⟨?_, ?_, ?_⟩ <;> (rcases h : st.ephemeralKeyPair with _ | kp <;> simp [h])

theorem finishHandshake_effects (cp : CryptoPrim)
    (resp : Except String FinishResult) (st : ChannelState) :
    countSec (finishHandshake cp resp st).2.nmLog = countSec st.nmLog ∧
    (finishHandshake cp resp st).2.ensureCalls = st.ensureCalls ∧
    (finishHandshake cp resp st).2.session = st.session := by
  have hsnd : (finishHandshake cp resp st).2 =
      wipeEphemeral (finishHandshakeBody cp resp st).2 := rfl
  have hb := finishHandshakeBody_effects cp resp st
  have hw := wipeEphemeral_effects (finishHandshakeBody cp resp st).2
  rw [hsnd, hw.1, hw.2.1, hw.2.2]
  exact hb

theorem classifyRetry_effects (a b : String) (st : ChannelState) :
    (classifyRetry a b st).2.nmLog = st.nmLog ∧
    (classifyRetry a b st).2.ensureCalls = st.ensureCalls := by
  unfold classifyRetry
  constructor <;> split <;> rfl

theorem performHandshake_effects (cp : CryptoPrim) (env : HsEnv)
    (st : ChannelState) :
    countSec (performHandshake cp env st).2.nmLog = countSec st.nmLog ∧
    (performHandshake cp env st).2.ensureCalls = st.ensureCalls ∧
    ((performHandshake cp env st).1 = Except.ok () →
      (performHandshake cp env st).2.session.isSome = true) := by
  rcases hb : beginHandshake cp env.eph env.beginResp st with ⟨bres, st1⟩
  have hbe := beginHandshake_log_ensure cp env.eph env.beginResp st
  rw [hb] at hbe
  have hbcount : countSec st1.nmLog = countSec st.nmLog := by
    rw [hbe.1, countSec_append]; rfl
  rcases hf : finishHandshake cp env.finishResp st1 with ⟨fin, st2⟩
  have hfe := finishHandshake_effects cp env.finishResp st1
  rw [hf] at hfe
  have hsess1 : bres.ok = true → st1.session.isSome = true := fun h =>
    beginHandshake_ok_session cp env.eph env.beginResp st bres st1 hb h
  unfold performHandshake
  rw [hb]
  simp only []
  rw [hf]
  refine ⟨?_, ?_, ?_⟩
  · (repeat' split) <;> simp only [clearSession] <;>
      first | rfl | exact hbcount | exact hfe.1.trans hbcount
  · (repeat' split) <;> simp only [clearSession] <;>
      first | rfl | exact hbe.2 | exact hfe.2.1.trans hbe.2
  · (repeat' split) <;> intro h <;>
      first
        | exact Except.noConfusion h
        | (rw [hfe.2.2]; apply hsess1; simp_all)

theorem hasActiveSession_isSome (st : ChannelState)
    (h : hasActiveSession st = true) : st.session.isSome = true := by
  unfold hasActiveSession at h
  cases hs : st.session <;> simp [hs] at h ⊢

theorem ensureSession_effects (cp : CryptoPrim) (env : HsEnv)
    (st : ChannelState) :
    countSec (ensureSession cp env st).2.nmLog = countSec st.nmLog ∧
    (ensureSession cp env st).2.ensureCalls = st.ensureCalls + 1 ∧
    ((ensureSession cp env st).1 = Except.ok () →
      (ensureSession cp env st).2.session.isSome = true) := by
  unfold ensureSession
  by_cases h : hasActiveSession ({ st with ensureCalls := st.ensureCalls + 1 })
  · rw [if_pos h]
    exact ⟨rfl, rfl, fun _ => hasActiveSession_isSome _ h⟩
  · rw [if_neg h]
    have hp := performHandshake_effects cp env
      ({ st with ensureCalls := st.ensureCalls + 1 })
    exact ⟨hp.1, hp.2.1, hp.2.2⟩

/-- Claim C2, amended: after a first attempt on an existing session fails
with a retryable error, the session is dropped and `ensureSession` runs
exactly once; exactly one second attempt is sent iff the re-handshake
succeeded; a failing retry whose classified message is identity-level
(identity keys unavailable, not paired, signature invalid) has pairing
cleared by the classifier, and any other failing retry surfaces its error
unchanged with the classifier leaving the state exactly as the retry left
it — which, when the re-handshake's finish step failed with a non-identity
error, is already a pairing-cleared state. -/
theorem secureRequest_retry_policy (cp : CryptoPrim) (method params : String)
    (env : SecureEnv) (st : ChannelState) (s : Session) (e : String)
    (hs : st.session = some s)
    (ha : (attempt method params env.nonce1 env.resp1 st).1 = Except.error e)
    (hr : retryable e = true) :
    retryPolicySpec cp method params env st e := by
  have hat := attempt_effects method params env.nonce1 env.resp1 st s hs
  have hens := ensureSession_effects cp env.hsEnv (retryState method params env st)
  have hrsL : (retryState method params env st).nmLog =
      (attempt method params env.nonce1 env.resp1 st).2.nmLog := rfl
  have hrsE : (retryState method params env st).ensureCalls =
      (attempt method params env.nonce1 env.resp1 st).2.ensureCalls := rfl
  have hcount2 : countSec
      (ensureSession cp env.hsEnv (retryState method params env st)).2.nmLog =
      countSec st.nmLog + 1 := by
    rw [hens.1, hrsL, hat.1]
  have hcalls2 :
      (ensureSession cp env.hsEnv (retryState method params env st)).2.ensureCalls =
      st.ensureCalls + 1 := by
    rw [hens.2.1, hrsE, hat.2]
  have main : secureRequest cp method params env st =
      (match (ensureSession cp env.hsEnv (retryState method params env st)).1 with
       | Except.ok _ =>
         (match (attempt method params env.nonce2 env.resp2
             (ensureSession cp env.hsEnv (retryState method params env st)).2).1 with
          | Except.ok v =>
            (Except.ok v, (attempt method params env.nonce2 env.resp2
              (ensureSession cp env.hsEnv (retryState method params env st)).2).2)
          | Except.error re =>
            classifyRetry re e (attempt method params env.nonce2 env.resp2
              (ensureSession cp env.hsEnv (retryState method params env st)).2).2)
       | Except.error he => classifyRetry he e
           (ensureSession cp env.hsEnv (retryState method params env st)).2) := by
    unfold secureRequest
    rw [hs]
    simp only []
    rw [ha]
    simp only []
    rw [if_pos hr]
  unfold retryPolicySpec
  simp only []
  rcases hhs : (ensureSession cp env.hsEnv (retryState method params env st)).1
    with he | u
  · rw [hhs] at main
    simp only [] at main
    have hce := classifyRetry_effects he e
      (ensureSession cp env.hsEnv (retryState method params env st)).2
    refine ⟨?_, ?_, ?_, ?_⟩
    · rw [main, hce.1, hcount2]
      rfl
    · rw [main, hce.2, hcalls2]
    · intro he' hhe'
      injection hhe' with heq
      subst heq
      by_cases hid : identityLevelMsg (fallbackMsg he e) = true
      · refine ⟨?_, fun _ => ⟨?_, ?_⟩, fun hcontra => ?_⟩
        · rw [main]; unfold classifyRetry; rw [if_pos hid]
        · rw [main]; unfold classifyRetry; rw [if_pos hid]
        · rw [main]; unfold classifyRetry; rw [if_pos hid]
          rfl
        · rw [hid] at hcontra; exact absurd hcontra (by decide)
      · rw [Bool.not_eq_true] at hid
        refine ⟨?_, fun hcontra => absurd (hid.symm.trans hcontra) (by decide),
          fun _ => ?_⟩
        · rw [main]; unfold classifyRetry; rw [if_neg (by rw [hid]; decide)]
        · rw [main]; unfold classifyRetry; rw [if_neg (by rw [hid]; decide)]
    · intro h4
      exact Except.noConfusion h4
  · cases u
    have hsome := hens.2.2 (by rw [hhs])
    obtain ⟨s2, hs2⟩ := Option.isSome_iff_exists.mp hsome
    have hat2 := attempt_effects method params env.nonce2 env.resp2
      (ensureSession cp env.hsEnv (retryState method params env st)).2 s2 hs2
    rw [hhs] at main
    simp only [] at main
    refine ⟨?_, ?_, ?_, ?_⟩
    · rcases hsec : (attempt method params env.nonce2 env.resp2
        (ensureSession cp env.hsEnv (retryState method params env st)).2).1
        with re | v <;> rw [hsec] at main <;> simp only [] at main
      · have hce := classifyRetry_effects re e
          (attempt method params env.nonce2 env.resp2
            (ensureSession cp env.hsEnv (retryState method params env st)).2).2
        rw [main, hce.1, hat2.1, hcount2]
      · rw [main]
        simp only []
        rw [hat2.1, hcount2]
    · rcases hsec : (attempt method params env.nonce2 env.resp2
        (ensureSession cp env.hsEnv (retryState method params env st)).2).1
        with re | v <;> rw [hsec] at main <;> simp only [] at main
      · have hce := classifyRetry_effects re e
          (attempt method params env.nonce2 env.resp2
            (ensureSession cp env.hsEnv (retryState method params env st)).2).2
        rw [main, hce.2, hat2.2, hcalls2]
      · rw [main]
        simp only []
        rw [hat2.2, hcalls2]
    · intro he hhe
      exact Except.noConfusion hhe
    · intro _
      constructor
      · intro v hv
        rw [hv] at main
        simp only [] at main
        exact main
      · intro re hre
        rw [hre] at main
        simp only [] at main
        by_cases hid : identityLevelMsg (fallbackMsg re e) = true
        · refine ⟨?_, fun _ => ⟨?_, ?_⟩, fun hcontra => ?_⟩
          · rw [main]; unfold classifyRetry; rw [if_pos hid]
          · rw [main]; unfold classifyRetry; rw [if_pos hid]
          · rw [main]; unfold classifyRetry; rw [if_pos hid]
            rfl
          · rw [hid] at hcontra; exact absurd hcontra (by decide)
        · rw [Bool.not_eq_true] at hid
          refine ⟨?_, fun hcontra => absurd (hid.symm.trans hcontra) (by decide),
            fun _ => ?_⟩
          · rw [main]; unfold classifyRetry; rw [if_neg (by rw [hid]; decide)]
          · rw [main]; unfold classifyRetry; rw [if_neg (by rw [hid]; decide)]

/-- Witness for the amended C2: a concrete run whose first attempt fails to
decrypt, with the retry's re-handshake failing with the non-identity error
Boom. -/
theorem secureRequest_retry_policy_witness :
    retryPolicySpec cpTrue "m" "p" envBoom stW DECRYPT_FAILED :=
  secureRequest_retry_policy cpTrue "m" "p" envBoom stW sessW DECRYPT_FAILED
    rfl (by decide) (by decide)

/-- Claim C2, counterexample: a first attempt on a paired state fails with
the retryable DecryptFailed; the retry's re-handshake finishes with the
non-identity error Boom, which the finish-failure policy answers by clearing
the session AND the pairing; the retry therefore fails with a non-identity
cause, the error is surfaced, yet pairing is NOT left intact — the pinned
fingerprint is gone afterwards. -/
theorem secureRequest_nonidentity_retry_clears_pairing :
    stW.storage.fingerprint = some "fp" ∧
    isPaired stW.storage = true ∧
    (attempt "m" "p" envBoom.nonce1 envBoom.resp1 stW).1 =
      Except.error DECRYPT_FAILED ∧
    retryable DECRYPT_FAILED = true ∧
    (secureRequest cpTrue "m" "p" envBoom stW).1 = Except.error "Boom" ∧
    identityLevelMsg "Boom" = false ∧
    (secureRequest cpTrue "m" "p" envBoom stW).2.storage.fingerprint = none ∧
    isPaired (secureRequest cpTrue "m" "p" envBoom stW).2.storage = false := by
  refine ⟨rfl, by decide, by decide, by decide, by decide, by decide,
    by decide, by decide⟩

end PearPass
